import Mathlib

/-!
Shallow embedding of the configuration validator in
`src/api/src/schemas/index.ts` (a zod v3 schema plus a `validate` entry
point), together with proofs about its behaviour.

JavaScript values relevant to the schema are modelled by `JsonValue`
(numbers as rationals, which is exact for every value appearing in the
rules).  Parsing a value against the schema yields the list of zod
issues, each carrying a path and a message, exactly as the source's
`validate.error.issues` does; zod unions that fail on every branch
surface a single `invalid_union` issue whose default message is
"Invalid input".
-/

namespace Schemas

/-- A JavaScript value as seen by the schema: `undef` stands for
`undefined` (also used for a missing object key, which zod reports the
same way). Numbers are modelled as rationals. -/
inductive JsonValue where
  | null
  | undef
  | bool (b : Bool)
  | num (q : ℚ)
  | str (s : String)
  | arr (elems : List JsonValue)
  | obj (fields : List (String × JsonValue))

/-- Object field access: a missing key reads as `undefined`. -/
def getField (fields : List (String × JsonValue)) (key : String) : JsonValue :=
  match fields with
  | [] => .undef
  | (k, v) :: rest => if k == key then v else getField rest key

/-- zod's `getParsedType` on the values we model. -/
def typeName : JsonValue → String
  | .null => "null"
  | .undef => "undefined"
  | .bool _ => "boolean"
  | .num _ => "number"
  | .str _ => "string"
  | .arr _ => "array"
  | .obj _ => "object"

/-- One zod issue: a path into the configuration and a message. -/
structure Issue where
  path : List String
  message : String
deriving DecidableEq

/-- zod's default `invalid_type` message: "Required" when the value is
`undefined`, otherwise "Expected <t>, received <t>". -/
def invalidType (path : List String) (expected : String) (v : JsonValue) : Issue :=
  { path := path
    message :=
      match v with
      | .undef => "Required"
      | _ => "Expected " ++ expected ++ ", received " ++ typeName v }

/-- The single-quote character, used by zod when quoting enum members. -/
def sq : String := String.singleton (Char.ofNat 39)

/-- Substring occurrence on character lists (the semantics of
JavaScript `String.prototype.includes`). -/
def listIncludes (pat : List Char) : List Char → Bool
  | [] => pat.isPrefixOf []
  | c :: rest => pat.isPrefixOf (c :: rest) || listIncludes pat rest

/-- JavaScript `s.includes(pat)`. -/
def strIncludes (s pat : String) : Bool :=
  listIncludes pat.data s.data

/-- ASCII lower-casing, the effect of JavaScript `toLowerCase` on the
messages produced here. -/
def strToLower (s : String) : String :=
  String.mk (s.data.map Char.toLower)

/-- Exact rational multiplication, written in a form the kernel can
evaluate (Lean core's `Rat.mul` does not reduce); proved equal to `*`
in `qmul_eq_mul` below. -/
def qmul (a b : ℚ) : ℚ :=
  mkRat (a.num * b.num) (a.den * b.den)

/-- Exact rational subtraction in kernel-evaluable form; proved equal
to `-` in `qsub_eq_sub` below. -/
def qsub (a b : ℚ) : ℚ :=
  mkRat (a.num * b.den - b.num * a.den) (a.den * b.den)

/-- Exact rational division in kernel-evaluable form; proved equal to
`/` in `qdiv_eq_div` below. -/
def qdiv (a b : ℚ) : ℚ :=
  Rat.divInt (a.num * b.den) (a.den * b.num)

/-- Truncation of a rational toward zero (JavaScript division
underlying `%`). -/
def ratTrunc (q : ℚ) : ℤ :=
  if q.num < 0 then -(((-q.num).toNat / q.den : ℕ) : ℤ)
  else ((q.num.toNat / q.den : ℕ) : ℤ)

/-- JavaScript's remainder operator `a % b` on (finite) numbers:
`a - b * trunc (a / b)` (see `jsMod_eq` below for this exact form). -/
def jsMod (a b : ℚ) : ℚ :=
  qsub a (qmul b ((ratTrunc (qdiv a b) : ℤ) : ℚ))

/-- The object the three `.refine` predicates in the source receive. -/
structure SizeValue where
  width : ℚ
  height : ℚ
  engine_id : String

/-- First `.refine` in the source:
`(value) => value.width % 64 === 0 && value.height % 64 === 0`. -/
def mult64Check (value : SizeValue) : Bool :=
  jsMod value.width 64 == 0 && jsMod value.height 64 == 0

/-- The function `validateSizeFor768` from the source (`size` is `width * height`,
written with the kernel-evaluable `qmul`). -/
def validateSizeFor768 (value : SizeValue) : Bool :=
  let width := value.width
  let height := value.height
  let engine_id := value.engine_id
  let size := qmul width height
  !(strIncludes engine_id "768" && (decide (size < 589824) || decide (size > 1048576)))

/-- The function `validateSizeForOtherEngines` from the source. -/
def validateSizeForOtherEngines (value : SizeValue) : Bool :=
  let width := value.width
  let height := value.height
  let engine_id := value.engine_id
  let size := qmul width height
  !((strIncludes engine_id "768" == false) && (decide (size < 262144) || decide (size > 1048576)))

/-- The check `z.boolean()`. -/
def parseBooleanField (path : List String) (v : JsonValue) : List Issue :=
  match v with
  | .bool _ => []
  | _ => [invalidType path "boolean" v]

/-- The check `z.string()`. -/
def parseStringField (path : List String) (v : JsonValue) : List Issue :=
  match v with
  | .str _ => []
  | _ => [invalidType path "string" v]

/-- The check `z.string().nullish()`. -/
def parseNullishStringField (path : List String) (v : JsonValue) : List Issue :=
  match v with
  | .str _ => []
  | .null => []
  | .undef => []
  | _ => [invalidType path "string" v]

/-- zod's `too_small` message for numbers with an inclusive bound. -/
def boundMsgGe (n : ℕ) : String :=
  "Number must be greater than or equal to " ++ toString n

/-- zod's `too_big` message for numbers with an inclusive bound. -/
def boundMsgLe (n : ℕ) : String :=
  "Number must be less than or equal to " ++ toString n

/-- The check `z.number()` with optional `.min` / `.max` checks; all failing
checks are collected. -/
def parseNumberField (path : List String) (lo hi : Option ℕ) (v : JsonValue) : List Issue :=
  match v with
  | .num q =>
      (match lo with
       | some n => if q < (n : ℚ) then [⟨path, boundMsgGe n⟩] else []
       | none => []) ++
      (match hi with
       | some n => if (n : ℚ) < q then [⟨path, boundMsgLe n⟩] else []
       | none => [])
  | _ => [invalidType path "number" v]

/-- zod's rendering of an enum's options: `'a' | 'b' | ...`. -/
def enumExpected (options : List String) : String :=
  String.intercalate " | " (options.map (fun o => sq ++ o ++ sq))

/-- zod's `invalid_enum_value` message. -/
def enumMessage (options : List String) (received : String) : String :=
  "Invalid enum value. Expected " ++ enumExpected options ++ ", received " ++ sq ++ received ++ sq

/-- The check `z.enum([...])`. -/
def parseEnumField (path : List String) (options : List String) (v : JsonValue) : List Issue :=
  match v with
  | .str s => if options.contains s then [] else [⟨path, enumMessage options s⟩]
  | .undef => [⟨path, "Required"⟩]
  | _ => [⟨path, "Expected " ++ enumExpected options ++ ", received " ++ typeName v⟩]

/-- The 8 log levels of `logs.level`. -/
def logLevels : List String :=
  ["silent", "error", "warn", "info", "http", "verbose", "debug", "silly"]

/-- The 17 style tags accepted by `stabilityai.image.style`. -/
def styleEnum : List String :=
  ["3d-model", "analog-film", "anime", "cinematic", "comic-book", "digital-art",
   "enhance", "fantasy-art", "isometric", "line-art", "low-poly",
   "modeling-compound", "neon-punk", "origami", "photographic", "pixel-art",
   "tile-texture"]

/-- Is the value a number? (`z.number()` as a mere success test, used
inside unions where only branch success matters). -/
def isNum : JsonValue → Bool
  | .num _ => true
  | _ => false

/-- Success test of `z.number().min(lo).max(hi)`. -/
def numInRange (v : JsonValue) (lo hi : ℚ) : Bool :=
  match v with
  | .num q => decide (lo ≤ q) && decide (q ≤ hi)
  | _ => false

/-- Success test of `z.array(z.enum(styleEnum)).min(1)`. -/
def styleOk (v : JsonValue) : Bool :=
  match v with
  | .arr xs =>
      decide (1 ≤ xs.length) &&
      xs.all (fun x =>
        match x with
        | .str s => styleEnum.contains s
        | _ => false)
  | _ => false

/-- The message of the first `.refine` in the source. -/
def mult64Message : String := "Width and height must be multiples of 64"

/-- The message of the second `.refine` in the source. -/
def size768Message : String :=
  "Size must be between 589,824 (768x768) and 1,048,576 (1024x1024) for engine_id containing 768"

/-- The message of the third `.refine` in the source. -/
def sizeOtherMessage : String :=
  "Size must be between 262,144 (512x512) and 1,048,576 (1024x1024) for other engine_ids"

/-- zod's `too_small` message for arrays with an inclusive bound. -/
def arrayMinMessage (n : ℕ) : String :=
  "Array must contain at least " ++ toString n ++ " element(s)"

/-- Structural (abort-level) success of the style array: it is an array
whose elements are all valid enum strings.  The `.min(1)` length check
is a dirty check, not a structural abort. -/
def styleStructOk (v : JsonValue) : Bool :=
  match v with
  | .arr xs =>
      xs.all (fun x =>
        match x with
        | .str s => styleEnum.contains s
        | _ => false)
  | _ => false

/-- The `.min(1)` check of a style array: one `too_small` issue at the
array's own path when it is empty (zod marks the result dirty, it does
not abort). -/
def styleMinIssues (path : List String) (v : JsonValue) : List Issue :=
  match v with
  | .arr xs => if xs.length < 1 then [⟨path, arrayMinMessage 1⟩] else []
  | _ => []

/-- Structural well-typedness of the remaining fields of the image
parameter object (beyond engine_id/width/height, which the caller
matches): a wrong primitive type in any of them aborts the whole
object parse in zod v3 (`invalid_type` issues return INVALID), whereas
range failures only mark it dirty. -/
def stabImageWellTyped (fs : List (String × JsonValue)) : Bool :=
  isNum (getField fs "timeout") &&
  isNum (getField fs "cfg_scale") &&
  isNum (getField fs "samples") &&
  isNum (getField fs "steps") &&
  styleStructOk (getField fs "style")

/-- The dirty-check issues of a structurally well-typed image parameter
object: the `.min`/`.max` range checks, at each field's own path in
shape-key order, followed by the style `.min(1)` check. -/
def stabRangeIssues (path : List String) (fs : List (String × JsonValue)) : List Issue :=
  parseNumberField (path ++ ["cfg_scale"]) (some 0) (some 35) (getField fs "cfg_scale") ++
  parseNumberField (path ++ ["samples"]) (some 1) (some 10) (getField fs "samples") ++
  parseNumberField (path ++ ["steps"]) (some 10) (some 50) (getField fs "steps") ++
  styleMinIssues (path ++ ["style"]) (getField fs "style")

/-- The issues of the three `.refine` predicates, in chain order, each
a `custom` issue at the refined object's path carrying the refine's own
message. -/
def refineIssues (path : List String) (w h : ℚ) (e : String) : List Issue :=
  (if mult64Check ⟨w, h, e⟩ then [] else [⟨path, mult64Message⟩]) ++
  (if validateSizeFor768 ⟨w, h, e⟩ then [] else [⟨path, size768Message⟩]) ++
  (if validateSizeForOtherEngines ⟨w, h, e⟩ then [] else [⟨path, sizeOtherMessage⟩])

/-- Success test of the object branch of the `stabilityai.image` union:
the structural field checks of lines 73–104 of the source together with
the three `.refine` predicates.  zod only surfaces whether a union
branch succeeded, so inside the union this Boolean is all that
matters. -/
def stabImageBranchOk (v : JsonValue) : Bool :=
  match v with
  | .obj fs =>
      match getField fs "engine_id", getField fs "width", getField fs "height" with
      | .str e, .num w, .num h =>
          isNum (getField fs "timeout") &&
          numInRange (getField fs "cfg_scale") 0 35 &&
          numInRange (getField fs "samples") 1 10 &&
          numInRange (getField fs "steps") 10 50 &&
          styleOk (getField fs "style") &&
          mult64Check ⟨w, h, e⟩ &&
          validateSizeFor768 ⟨w, h, e⟩ &&
          validateSizeForOtherEngines ⟨w, h, e⟩
      | _, _, _ => false
  | _ => false

/-- The `stabilityai.image` union, with zod v3's two failure modes.  A
valid branch (the literal `false`, or the object with every check and
refine passing) yields no issue.  A *dirty* object branch — all fields
of the right primitive type, but some range check or refine failing —
surfaces that branch's own issues into the parent (`ZodUnion` pushes
the first dirty option's issues and returns the dirty result).  Only
when every branch *aborts* (a type-level failure inside the object, or
a non-object non-false value) does the union add the single
`invalid_union` issue with default message "Invalid input". -/
def parseStabImage (path : List String) (v : JsonValue) : List Issue :=
  match v with
  | .bool false => []
  | .obj fs =>
      match getField fs "engine_id", getField fs "width", getField fs "height" with
      | .str e, .num w, .num h =>
          if stabImageWellTyped fs then
            stabRangeIssues path fs ++ refineIssues path w h e
          else [⟨path, "Invalid input"⟩]
      | _, _, _ => [⟨path, "Invalid input"⟩]
  | _ => [⟨path, "Invalid input"⟩]

/-- Structural (abort-level) success of the `openai.image` object
branch: `size` a member of the 3-value enum, `style` an array of
strings.  An empty style array is a dirty failure, not an abort. -/
def openaiImageWellTyped (fs : List (String × JsonValue)) : Bool :=
  (match getField fs "size" with
   | .str s => ["1024x1024", "512x512", "256x256"].contains s
   | _ => false) &&
  (match getField fs "style" with
   | .arr xs => xs.all (fun x => match x with | .str _ => true | _ => false)
   | _ => false)

/-- The `openai.image` union: same zod v3 semantics as the stability
union — a dirty object branch (well-typed but empty style array)
surfaces its own `too_small` issue at `style`; an aborted branch
yields the single `invalid_union` issue. -/
def parseOpenaiImage (path : List String) (v : JsonValue) : List Issue :=
  match v with
  | .bool false => []
  | .obj fs =>
      if openaiImageWellTyped fs then
        styleMinIssues (path ++ ["style"]) (getField fs "style")
      else [⟨path, "Invalid input"⟩]
  | _ => [⟨path, "Invalid input"⟩]

/-- The `logs` section. -/
def parseLogs (path : List String) (v : JsonValue) : List Issue :=
  match v with
  | .obj fs => parseEnumField (path ++ ["level"]) logLevels (getField fs "level")
  | _ => [invalidType path "object" v]

/-- The `time` section. -/
def parseTime (path : List String) (v : JsonValue) : List Issue :=
  match v with
  | .obj fs =>
      parseStringField (path ++ ["timezone"]) (getField fs "timezone") ++
      parseNullishStringField (path ++ ["format"]) (getField fs "format")
  | _ => [invalidType path "object" v]

/-- The `image` section. -/
def parseImageSection (path : List String) (v : JsonValue) : List Issue :=
  match v with
  | .obj fs =>
      parseNumberField (path ++ ["interval"]) (some 10) none (getField fs "interval") ++
      parseEnumField (path ++ ["order"]) ["random", "recent"] (getField fs "order")
  | _ => [invalidType path "object" v]

/-- The `transcript` section. -/
def parseTranscript (path : List String) (v : JsonValue) : List Issue :=
  match v with
  | .obj fs =>
      parseStringField (path ++ ["cron"]) (getField fs "cron") ++
      parseNumberField (path ++ ["minutes"]) none none (getField fs "minutes") ++
      parseNumberField (path ++ ["minimum"]) (some 1) none (getField fs "minimum")
  | _ => [invalidType path "object" v]

/-- The `openai.summary` object. -/
def parseSummary (path : List String) (v : JsonValue) : List Issue :=
  match v with
  | .obj fs =>
      parseStringField (path ++ ["model"]) (getField fs "model") ++
      parseStringField (path ++ ["prompt"]) (getField fs "prompt") ++
      parseStringField (path ++ ["random"]) (getField fs "random")
  | _ => [invalidType path "object" v]

/-- The `openai` section. -/
def parseOpenai (path : List String) (v : JsonValue) : List Issue :=
  match v with
  | .obj fs =>
      parseStringField (path ++ ["key"]) (getField fs "key") ++
      parseSummary (path ++ ["summary"]) (getField fs "summary") ++
      parseOpenaiImage (path ++ ["image"]) (getField fs "image")
  | _ => [invalidType path "object" v]

/-- The `stabilityai` section (`z.object({...}).nullish()`). -/
def parseStability (path : List String) (v : JsonValue) : List Issue :=
  match v with
  | .null => []
  | .undef => []
  | .obj fs =>
      parseStringField (path ++ ["key"]) (getField fs "key") ++
      parseStabImage (path ++ ["image"]) (getField fs "image")
  | _ => [invalidType path "object" v]

/-- The `system.storage` object. -/
def parseStorage (path : List String) (v : JsonValue) : List Issue :=
  match v with
  | .obj fs => parseStringField (path ++ ["path"]) (getField fs "path")
  | _ => [invalidType path "object" v]

/-- The `system` section. -/
def parseSystem (path : List String) (v : JsonValue) : List Issue :=
  match v with
  | .obj fs =>
      parseNumberField (path ++ ["port"]) none none (getField fs "port") ++
      parseStorage (path ++ ["storage"]) (getField fs "storage")
  | _ => [invalidType path "object" v]

/-- The value `schema.safeParse(configuration).error.issues`: the issues of the
whole top-level schema, in shape-key order (zod checks every key and
collects all issues; there is no short-circuit). -/
def parseConfig (v : JsonValue) : List Issue :=
  match v with
  | .obj fs =>
      parseBooleanField ["telemetry"] (getField fs "telemetry") ++
      parseLogs ["logs"] (getField fs "logs") ++
      parseTime ["time"] (getField fs "time") ++
      parseImageSection ["image"] (getField fs "image") ++
      parseTranscript ["transcript"] (getField fs "transcript") ++
      parseOpenai ["openai"] (getField fs "openai") ++
      parseStability ["stabilityai"] (getField fs "stabilityai") ++
      parseSystem ["system"] (getField fs "system")
  | _ => [invalidType [] "object" v]

/-- The message `error.path.join('.') + ': ' + error.message.toLowerCase()` from the
source. -/
def renderIssue (i : Issue) : String :=
  String.intercalate "." i.path ++ ": " ++ strToLower i.message

mutual
/-- Modelled from the spec: the redaction collaborator
(`src/api/src/util/redact.util.ts` is not under `src/`): returns a
structurally identical configuration with the secret-bearing fields
(API keys, held under keys named "key") replaced by a fixed
placeholder. -/
def redact : JsonValue → JsonValue
  | .obj fs => .obj (redactFields fs)
  | .arr xs => .arr (redactList xs)
  | .null => .null
  | .undef => .undef
  | .bool b => .bool b
  | .num q => .num q
  | .str s => .str s

def redactFields : List (String × JsonValue) → List (String × JsonValue)
  | [] => []
  | (k, v) :: rest =>
      (if k == "key" then (k, .str "<redacted>") else (k, redact v)) :: redactFields rest

def redactList : List JsonValue → List JsonValue
  | [] => []
  | v :: rest => redact v :: redactList rest
end

/-- One diagnostic log call made by the validator (the logging
collaborator itself, `src/api/src/util/logger.util.ts`, is outside the
modelled core; we record the calls). -/
inductive LogEvent where
  | verboseDump (redacted : JsonValue)
  | errorCount (n : ℕ)
  | errorLine (message : String)

/-- The default export of the source file: validate the (already
lower-cased) configuration snapshot; return the error-message list and
perform the diagnostic logging, both gated on `returnErrors`. -/
def validate (returnErrors : Bool) (configuration : JsonValue) :
    List String × List LogEvent :=
  let issues := parseConfig configuration
  let preLog : List LogEvent :=
    if returnErrors then [] else [.verboseDump (redact configuration)]
  if issues.isEmpty then ([], preLog)
  else if returnErrors then (issues.map renderIssue, preLog)
  else ([], preLog ++ [.errorCount issues.length] ++
        issues.map (fun i => .errorLine (renderIssue i)))

/-- Is the rational an integer? (used by the spec-side predicate,
whose wording declares several fields "integer"). -/
def isIntQ (q : ℚ) : Bool := q.den == 1

/-- Spec-side rule, from the spec's wording: `logs` is an object whose
`level` lies in the 8-value enumeration. -/
def specLogsOk (v : JsonValue) : Bool :=
  match v with
  | .obj fs =>
      match getField fs "level" with
      | .str s => logLevels.contains s
      | _ => false
  | _ => false

/-- Spec-side rule: `time` is an object with a string `timezone` and an
optional string `format`. -/
def specTimeOk (v : JsonValue) : Bool :=
  match v with
  | .obj fs =>
      (match getField fs "timezone" with | .str _ => true | _ => false) &&
      (match getField fs "format" with
       | .str _ => true | .null => true | .undef => true | _ => false)
  | _ => false

/-- Spec-side rule: `image` is an object with `interval` a number ≥ 10
and `order` in {random, recent}. -/
def specImageOk (v : JsonValue) : Bool :=
  match v with
  | .obj fs =>
      (match getField fs "interval" with | .num q => decide ((10 : ℚ) ≤ q) | _ => false) &&
      (match getField fs "order" with
       | .str s => ["random", "recent"].contains s
       | _ => false)
  | _ => false

/-- Spec-side rule: `transcript` is an object with a string `cron`, a
number `minutes` and a number `minimum` ≥ 1. -/
def specTranscriptOk (v : JsonValue) : Bool :=
  match v with
  | .obj fs =>
      (match getField fs "cron" with | .str _ => true | _ => false) &&
      (match getField fs "minutes" with | .num _ => true | _ => false) &&
      (match getField fs "minimum" with | .num q => decide ((1 : ℚ) ≤ q) | _ => false)
  | _ => false

/-- Spec-side rule: the text provider's image sub-config is the
disabled sentinel or an object with a size from the 3-value enumeration
and a non-empty string array of styles. -/
def specOpenaiImageOk (v : JsonValue) : Bool :=
  match v with
  | .bool false => true
  | .obj fs =>
      (match getField fs "size" with
       | .str s => ["1024x1024", "512x512", "256x256"].contains s
       | _ => false) &&
      (match getField fs "style" with
       | .arr xs =>
           decide (1 ≤ xs.length) &&
           xs.all (fun x => match x with | .str _ => true | _ => false)
       | _ => false)
  | _ => false

/-- Spec-side rule: the `openai` section. -/
def specOpenaiOk (v : JsonValue) : Bool :=
  match v with
  | .obj fs =>
      (match getField fs "key" with | .str _ => true | _ => false) &&
      (match getField fs "summary" with
       | .obj sfs =>
           (match getField sfs "model" with | .str _ => true | _ => false) &&
           (match getField sfs "prompt" with | .str _ => true | _ => false) &&
           (match getField sfs "random" with | .str _ => true | _ => false)
       | _ => false) &&
      specOpenaiImageOk (getField fs "image")
  | _ => false

/-- Modelled from the spec (§3): the image-generation parameters —
engine identifier (string), width/height/timeout (integers), cfg_scale
in [0,35], samples an integer in [1,10], steps an integer in [10,50],
style a non-empty list from the 17-tag enumeration, plus the three
cross-field invariants (multiple-of-64 and area-by-engine, written
exactly as the spec's items 1–3), or the explicit disabled sentinel. -/
def specStabImageOk (v : JsonValue) : Bool :=
  match v with
  | .bool false => true
  | .obj fs =>
      match getField fs "engine_id", getField fs "width", getField fs "height" with
      | .str e, .num w, .num h =>
          isIntQ w && isIntQ h &&
          (match getField fs "timeout" with | .num t => isIntQ t | _ => false) &&
          (match getField fs "cfg_scale" with
           | .num c => decide ((0 : ℚ) ≤ c) && decide (c ≤ 35)
           | _ => false) &&
          (match getField fs "samples" with
           | .num s2 => isIntQ s2 && decide ((1 : ℚ) ≤ s2) && decide (s2 ≤ 10)
           | _ => false) &&
          (match getField fs "steps" with
           | .num s2 => isIntQ s2 && decide ((10 : ℚ) ≤ s2) && decide (s2 ≤ 50)
           | _ => false) &&
          styleOk (getField fs "style") &&
          (w.num % 64 == 0) && (h.num % 64 == 0) &&
          (if strIncludes e "768" then
             decide ((589824 : ℚ) ≤ qmul w h) && decide (qmul w h ≤ 1048576)
           else
             decide ((262144 : ℚ) ≤ qmul w h) && decide (qmul w h ≤ 1048576))
      | _, _, _ => false
  | _ => false

/-- Spec-side rule: the optional image-generation provider section.
Following the spec's tri-state wording, the provider config as a whole
may be entirely absent, *explicitly disabled (a single false-like
sentinel)*, or a fully-populated object. -/
def specStabilityOk (v : JsonValue) : Bool :=
  match v with
  | .null => true
  | .undef => true
  | .bool false => true
  | .obj fs =>
      (match getField fs "key" with | .str _ => true | _ => false) &&
      specStabImageOk (getField fs "image")
  | _ => false

/-- Spec-side rule: the `system` section. -/
def specSystemOk (v : JsonValue) : Bool :=
  match v with
  | .obj fs =>
      (match getField fs "port" with | .num _ => true | _ => false) &&
      (match getField fs "storage" with
       | .obj sfs => (match getField sfs "path" with | .str _ => true | _ => false)
       | _ => false)
  | _ => false

/-- Modelled from the spec (§3/§4): a configuration satisfying every
rule of the rule set, re-stated from the specification's own wording so
that it can be compared against the parser (`parseConfig`). -/
def specValidConfig (c : JsonValue) : Bool :=
  match c with
  | .obj fs =>
      (match getField fs "telemetry" with | .bool _ => true | _ => false) &&
      specLogsOk (getField fs "logs") &&
      specTimeOk (getField fs "time") &&
      specImageOk (getField fs "image") &&
      specTranscriptOk (getField fs "transcript") &&
      specOpenaiOk (getField fs "openai") &&
      specStabilityOk (getField fs "stabilityai") &&
      specSystemOk (getField fs "system")
  | _ => false

/-- Image-generation parameter object with the given engine, width,
height, timeout, cfg_scale, samples and steps (style fixed to a valid
singleton), used to build concrete test configurations. -/
def imgFields (engine : String) (w h tmo cfg smp stp : ℚ) : List (String × JsonValue) :=
  [("engine_id", .str engine), ("width", .num w), ("height", .num h),
   ("timeout", .num tmo), ("cfg_scale", .num cfg), ("samples", .num smp),
   ("steps", .num stp), ("style", .arr [.str "anime"])]

/-- A `stabilityai` section with the given image sub-config. -/
def stabFields (img : JsonValue) : List (String × JsonValue) :=
  [("key", .str "sk"), ("image", img)]

/-- A full configuration, parameterised by the log level, the image
order, one image-parameter field (`samples`) and the whole
`stabilityai` value, so that single-rule mutations are easy to write
down. -/
def cfgFields (level order : String) (stab : JsonValue) : List (String × JsonValue) :=
  [("telemetry", .bool true),
   ("logs", .obj [("level", .str level)]),
   ("time", .obj [("timezone", .str "utc"), ("format", .null)]),
   ("image", .obj [("interval", .num 30), ("order", .str order)]),
   ("transcript", .obj [("cron", .str "0 0 * * *"), ("minutes", .num 60), ("minimum", .num 1)]),
   ("openai", .obj [("key", .str "ok"),
                    ("summary", .obj [("model", .str "m"), ("prompt", .str "p"), ("random", .str "r")]),
                    ("image", .bool false)]),
   ("stabilityai", stab),
   ("system", .obj [("port", .num 8080), ("storage", .obj [("path", .str "/data")])])]

/-- A fully valid image parameter object (512×512 on a non-768
engine). -/
def validImgFields : List (String × JsonValue) :=
  imgFields "stable-diffusion-v1-5" 512 512 30 7 1 30

/-- A fully valid configuration. -/
def validCfg : JsonValue :=
  .obj (cfgFields "info" "random" (.obj (stabFields (.obj validImgFields))))

/-- 512×512 on an engine whose identifier contains "768": area 262144
is below the 589824 lower bound of the 768 rule. -/
def imgC1Fields : List (String × JsonValue) :=
  imgFields "stable-diffusion-768-v2" 512 512 30 7 1 30

/-- Configuration violating (only) the area-by-engine rule. -/
def cfgC1 : JsonValue :=
  .obj (cfgFields "info" "random" (.obj (stabFields (.obj imgC1Fields))))

/-- 768×768 on an engine whose identifier contains "768": the area
589824 sits exactly on the lower bound of the 768 rule. -/
def imgC1boundFields : List (String × JsonValue) :=
  imgFields "stable-diffusion-768-v2" 768 768 30 7 1 30

/-- Configuration sitting exactly on the 768-engine lower area bound. -/
def cfgC1bound : JsonValue :=
  .obj (cfgFields "info" "random" (.obj (stabFields (.obj imgC1boundFields))))

/-- width 100 is not a multiple of 64. -/
def imgC2Fields : List (String × JsonValue) :=
  imgFields "stable-diffusion-v1-5" 100 768 30 7 1 30

/-- Configuration violating the multiple-of-64 rule. -/
def cfgC2 : JsonValue :=
  .obj (cfgFields "info" "random" (.obj (stabFields (.obj imgC2Fields))))

/-- Image parameters violating the multiple-of-64 rule (width 100), the
non-768 area rule (area 25600) and the per-field `samples` range
(99 > 10) at the same time. -/
def imgC4Fields : List (String × JsonValue) :=
  imgFields "stable-diffusion-v1-5" 100 256 30 7 99 30

/-- Configuration violating several rules inside the image sub-config
at once. -/
def cfgC4 : JsonValue :=
  .obj (cfgFields "info" "random" (.obj (stabFields (.obj imgC4Fields))))

/-- Configuration violating rules at three distinct locations: the log
level, the image order, and the image sub-config (multiple-of-64). -/
def cfgC4b : JsonValue :=
  .obj (cfgFields "trace" "weird" (.obj (stabFields (.obj imgC2Fields))))

/-- Image parameters violating the per-field type rule for `timeout`
(a string) together with the multiple-of-64 and area cross-field rules
(width 100, height 256): the wrong primitive type aborts the union's
object branch. -/
def imgC4abortFields : List (String × JsonValue) :=
  [("engine_id", .str "stable-diffusion-v1-5"), ("width", .num 100), ("height", .num 256),
   ("timeout", .str "soon"), ("cfg_scale", .num 7), ("samples", .num 1),
   ("steps", .num 30), ("style", .arr [.str "anime"])]

/-- Configuration whose image sub-config aborts while also violating
cross-field rules. -/
def cfgC4abort : JsonValue :=
  .obj (cfgFields "info" "random" (.obj (stabFields (.obj imgC4abortFields))))

/-- Configuration whose image-generation provider's image sub-config is
the disabled sentinel while another rule (log level) is violated. -/
def cfgC6 : JsonValue :=
  .obj (cfgFields "trace" "random" (.obj (stabFields (.bool false))))

/-- Configuration whose whole provider config is the literal `false`. -/
def cfgC7 : JsonValue :=
  .obj (cfgFields "info" "random" (.bool false))

/-- Configuration valid in every respect except the log level
"trace". -/
def cfgC8 : JsonValue :=
  .obj (cfgFields "trace" "random" (.obj (stabFields (.obj validImgFields))))

/-- Image parameters with non-integer `samples` (11/2) and `timeout`
(15/2); everything else valid. -/
def imgC9Fields : List (String × JsonValue) :=
  imgFields "stable-diffusion-v1-5" 512 512 (mkRat 15 2) 7 (mkRat 11 2) 30

/-- Configuration with non-integer numeric image parameters. -/
def cfgC9 : JsonValue :=
  .obj (cfgFields "info" "random" (.obj (stabFields (.obj imgC9Fields))))

/-- Image parameters whose `samples` has the wrong primitive type. -/
def imgC9strFields : List (String × JsonValue) :=
  [("engine_id", .str "stable-diffusion-v1-5"), ("width", .num 512), ("height", .num 512),
   ("timeout", .num 30), ("cfg_scale", .num 7), ("samples", .str "5"),
   ("steps", .num 30), ("style", .arr [.str "anime"])]

/-- Configuration with a wrongly-typed `samples`. -/
def cfgC9str : JsonValue :=
  .obj (cfgFields "info" "random" (.obj (stabFields (.obj imgC9strFields))))

/-- Image parameters whose `samples` (11) is out of range. -/
def imgC9rangeFields : List (String × JsonValue) :=
  imgFields "stable-diffusion-v1-5" 512 512 30 7 11 30

/-- Configuration with an out-of-range `samples`. -/
def cfgC9range : JsonValue :=
  .obj (cfgFields "info" "random" (.obj (stabFields (.obj imgC9rangeFields))))



theorem qmul_eq_mul (a b : ℚ) : qmul a b = a * b := by
  rw [qmul, Rat.mul_def, Rat.normalize_eq_mkRat]

theorem qsub_eq_sub (a b : ℚ) : qsub a b = a - b := (Rat.sub_def' a b).symm

theorem qdiv_eq_div (a b : ℚ) : qdiv a b = a / b := by
  rcases eq_or_ne b 0 with rfl | hb
  · simp [qdiv]
  · have hbn : b.num ≠ 0 := Rat.num_ne_zero.mpr hb
    have had : (a.den : ℤ) ≠ 0 := by exact_mod_cast a.den_nz
    rw [qdiv, Rat.div_def, Rat.inv_def]
    conv_rhs => rw [← Rat.divInt_self a]
    rw [Rat.divInt_mul_divInt _ _ had hbn]

theorem jsMod_eq (a b : ℚ) : jsMod a b = a - b * (ratTrunc (a / b) : ℚ) := by
  rw [jsMod, qsub_eq_sub, qmul_eq_mul, qdiv_eq_div]

theorem ratTrunc_intCast (m : ℤ) : ratTrunc (m : ℚ) = m := by
  unfold ratTrunc
  simp only [Rat.num_intCast, Rat.den_intCast, Nat.div_one]
  split <;> omega

theorem jsMod_int64 (w : ℚ) (h1 : w.den = 1) (h2 : w.num % 64 = 0) : jsMod w 64 = 0 := by
  have hw : ((w.num : ℤ) : ℚ) = w := by
    rw [← Rat.num_div_den w, h1]
    norm_num
  obtain ⟨k, hk⟩ : ∃ k : ℤ, w.num = 64 * k := ⟨w.num / 64, by omega⟩
  have hwk : w = ((64 * k : ℤ) : ℚ) := by rw [← hk, hw]
  rw [jsMod_eq, hwk]
  have hdiv : (((64 * k : ℤ) : ℚ)) / 64 = (k : ℚ) := by
    push_cast
    ring_nf
  rw [hdiv, ratTrunc_intCast]
  push_cast
  ring

theorem size_pred_iff (w h : ℚ) (e : String) :
    (validateSizeFor768 ⟨w, h, e⟩ && validateSizeForOtherEngines ⟨w, h, e⟩) = true ↔
      (if strIncludes e "768" = true then 589824 ≤ w * h ∧ w * h ≤ 1048576
       else 262144 ≤ w * h ∧ w * h ≤ 1048576) := by
  simp only [validateSizeFor768, validateSizeForOtherEngines, qmul_eq_mul]
  cases hI : strIncludes e "768" <;>
    simp [hI, not_or, not_lt, and_comm]

theorem mult64_iff (w h : ℚ) (e : String) :
    mult64Check ⟨w, h, e⟩ = true ↔ (jsMod w 64 = 0 ∧ jsMod h 64 = 0) := by
  simp [mult64Check]

theorem isNum_of_numInRange (v : JsonValue) (lo hi : ℚ) (h : numInRange v lo hi = true) :
    isNum v = true := by
  cases v <;> simp_all [numInRange, isNum]

theorem styleStructOk_of_styleOk (v : JsonValue) (h : styleOk v = true) :
    styleStructOk v = true := by
  cases v <;> simp_all [styleOk, styleStructOk]

theorem styleMinIssues_empty_of_styleOk (p : List String) (v : JsonValue)
    (h : styleOk v = true) : styleMinIssues p v = [] := by
  cases v with
  | arr xs =>
    simp only [styleOk, Bool.and_eq_true, decide_eq_true_eq] at h
    obtain ⟨hlen, _⟩ := h
    simp [styleMinIssues, not_lt.mpr hlen]
  | null => simp [styleOk] at h
  | undef => simp [styleOk] at h
  | bool b => simp [styleOk] at h
  | num q => simp [styleOk] at h
  | str s => simp [styleOk] at h
  | obj fs => simp [styleOk] at h

theorem rangeParse_0_35 (p : List String) (v : JsonValue) (h : numInRange v 0 35 = true) :
    parseNumberField p (some 0) (some 35) v = [] := by
  cases v <;> simp_all [numInRange, parseNumberField, not_lt]

theorem rangeParse_1_10 (p : List String) (v : JsonValue) (h : numInRange v 1 10 = true) :
    parseNumberField p (some 1) (some 10) v = [] := by
  cases v <;> simp_all [numInRange, parseNumberField, not_lt]

theorem rangeParse_10_50 (p : List String) (v : JsonValue) (h : numInRange v 10 50 = true) :
    parseNumberField p (some 10) (some 50) v = [] := by
  cases v <;> simp_all [numInRange, parseNumberField, not_lt]

theorem branchOk_parse_empty (v : JsonValue) (hv : stabImageBranchOk v = true)
    (p : List String) : parseStabImage p v = [] := by
  cases v with
  | obj fs =>
    simp only [stabImageBranchOk] at hv
    simp only [parseStabImage]
    cases he : getField fs "engine_id"
    case str e =>
      rw [he] at hv
      cases hw : getField fs "width"
      case num w =>
        rw [hw] at hv
        cases hh : getField fs "height"
        case num h2 =>
          rw [hh] at hv
          simp only [Bool.and_eq_true] at hv
          obtain ⟨⟨⟨⟨⟨⟨⟨ht, hc⟩, hsm⟩, hst⟩, hsty⟩, hm⟩, h7⟩, ho⟩ := hv
          have hwt : stabImageWellTyped fs = true := by
            simp only [stabImageWellTyped, Bool.and_eq_true]
            exact ⟨⟨⟨⟨ht, isNum_of_numInRange _ _ _ hc⟩, isNum_of_numInRange _ _ _ hsm⟩,
              isNum_of_numInRange _ _ _ hst⟩, styleStructOk_of_styleOk _ hsty⟩
          simp only [hwt, if_true]
          rw [stabRangeIssues, rangeParse_0_35 _ _ hc, rangeParse_1_10 _ _ hsm,
            rangeParse_10_50 _ _ hst, styleMinIssues_empty_of_styleOk _ _ hsty,
            refineIssues, hm, h7, ho]
          rfl
        all_goals rw [hh] at hv
        all_goals simp at hv
      all_goals rw [hw] at hv
      all_goals simp at hv
    all_goals rw [he] at hv
    all_goals simp at hv
  | bool b => cases b <;> simp_all [stabImageBranchOk, parseStabImage]
  | null => simp [stabImageBranchOk] at hv
  | undef => simp [stabImageBranchOk] at hv
  | num q => simp [stabImageBranchOk] at hv
  | str s => simp [stabImageBranchOk] at hv
  | arr xs => simp [stabImageBranchOk] at hv

theorem validate_true_fst (c : JsonValue) :
    (validate true c).1 = (parseConfig c).map renderIssue := by
  unfold validate
  by_cases h : (parseConfig c).isEmpty
  · rw [List.isEmpty_iff] at h
    simp [h]
  · simp [h]

theorem validate_true_snd (c : JsonValue) : (validate true c).2 = [] := by
  unfold validate
  by_cases h : (parseConfig c).isEmpty <;> simp [h]

theorem validate_false_fst (c : JsonValue) : (validate false c).1 = [] := by
  unfold validate
  by_cases h : (parseConfig c).isEmpty <;> simp [h]

theorem stab_issue_mem (cfs sfs : List (String × JsonValue))
    (hs : getField cfs "stabilityai" = .obj sfs) (i : Issue)
    (hi : i ∈ parseStabImage ["stabilityai", "image"] (getField sfs "image")) :
    i ∈ parseConfig (.obj cfs) := by
  simp only [parseConfig, parseStability, hs, List.mem_append]
  tauto

theorem message_mem_validate (c : JsonValue) (i : Issue) (hi : i ∈ parseConfig c) :
    renderIssue i ∈ (validate true c).1 := by
  rw [validate_true_fst]
  exact List.mem_map_of_mem _ hi

theorem parseBooleanField_path (p : List String) (v : JsonValue) :
    ∀ i ∈ parseBooleanField p v, i.path = p := by
  cases v <;> simp [parseBooleanField, invalidType]

theorem parseStringField_path (p : List String) (v : JsonValue) :
    ∀ i ∈ parseStringField p v, i.path = p := by
  cases v <;> simp [parseStringField, invalidType]

theorem parseNullishStringField_path (p : List String) (v : JsonValue) :
    ∀ i ∈ parseNullishStringField p v, i.path = p := by
  cases v <;> simp [parseNullishStringField, invalidType]

theorem parseNumberField_path (p : List String) (lo hi : Option ℕ) (v : JsonValue) :
    ∀ i ∈ parseNumberField p lo hi v, i.path = p := by
  cases v <;> cases lo <;> cases hi <;>
    simp [parseNumberField, invalidType] <;>
    intro i hm <;> rcases hm with hm | hm <;>
    first
      | (split at hm <;> simp_all)
      | simp_all

theorem parseEnumField_path (p opts : List String) (v : JsonValue) :
    ∀ i ∈ parseEnumField p opts v, i.path = p := by
  cases v <;> simp [parseEnumField] <;> split <;> simp

theorem refineIssues_path (p : List String) (w h : ℚ) (e : String) :
    ∀ i ∈ refineIssues p w h e, i.path = p := by
  intro i hm
  simp only [refineIssues, List.mem_append] at hm
  rcases hm with (hm | hm) | hm <;> split at hm <;> simp_all

theorem styleMinIssues_path (p : List String) (v : JsonValue) :
    ∀ i ∈ styleMinIssues p v, i.path = p := by
  intro i hm
  unfold styleMinIssues at hm
  split at hm
  · split at hm <;> simp_all
  · simp at hm

theorem stabRangeIssues_path (p : List String) (fs : List (String × JsonValue)) :
    ∀ i ∈ stabRangeIssues p fs,
      i.path = p ++ ["cfg_scale"] ∨ i.path = p ++ ["samples"] ∨
      i.path = p ++ ["steps"] ∨ i.path = p ++ ["style"] := by
  intro i hm
  simp only [stabRangeIssues, List.mem_append] at hm
  rcases hm with ((hm | hm) | hm) | hm
  · exact Or.inl (parseNumberField_path _ _ _ _ i hm)
  · exact Or.inr (Or.inl (parseNumberField_path _ _ _ _ i hm))
  · exact Or.inr (Or.inr (Or.inl (parseNumberField_path _ _ _ _ i hm)))
  · exact Or.inr (Or.inr (Or.inr (styleMinIssues_path _ _ i hm)))

theorem parseStabImage_path (p : List String) (v : JsonValue) :
    ∀ i ∈ parseStabImage p v,
      i.path = p ∨ i.path = p ++ ["cfg_scale"] ∨ i.path = p ++ ["samples"] ∨
      i.path = p ++ ["steps"] ∨ i.path = p ++ ["style"] := by
  intro i hm
  unfold parseStabImage at hm
  split at hm
  · simp at hm
  · split at hm
    · split at hm
      · rcases List.mem_append.mp hm with hm2 | hm2
        · exact Or.inr (stabRangeIssues_path _ _ i hm2)
        · exact Or.inl (refineIssues_path _ _ _ _ i hm2)
      · simp_all
    · simp_all
  · simp_all

theorem parseOpenaiImage_path (p : List String) (v : JsonValue) :
    ∀ i ∈ parseOpenaiImage p v, ∃ r, i.path = p ++ r := by
  intro i hm
  unfold parseOpenaiImage at hm
  split at hm
  · simp at hm
  · split at hm
    · exact ⟨["style"], styleMinIssues_path _ _ i hm⟩
    · simp at hm
      exact ⟨[], by simp [hm]⟩
  · simp at hm
    exact ⟨[], by simp [hm]⟩

theorem parseLogs_path (p : List String) (v : JsonValue) :
    ∀ i ∈ parseLogs p v, ∃ r, i.path = p ++ r := by
  intro i h
  unfold parseLogs at h
  split at h
  · exact ⟨["level"], parseEnumField_path _ _ _ i h⟩
  · simp [invalidType] at h
    exact ⟨[], by simp [h]⟩

theorem parseTime_path (p : List String) (v : JsonValue) :
    ∀ i ∈ parseTime p v, ∃ r, i.path = p ++ r := by
  intro i h
  unfold parseTime at h
  split at h
  · rcases List.mem_append.mp h with h2 | h2
    · exact ⟨["timezone"], parseStringField_path _ _ i h2⟩
    · exact ⟨["format"], parseNullishStringField_path _ _ i h2⟩
  · simp [invalidType] at h
    exact ⟨[], by simp [h]⟩

theorem parseImageSection_path (p : List String) (v : JsonValue) :
    ∀ i ∈ parseImageSection p v, ∃ r, i.path = p ++ r := by
  intro i h
  unfold parseImageSection at h
  split at h
  · rcases List.mem_append.mp h with h2 | h2
    · exact ⟨["interval"], parseNumberField_path _ _ _ _ i h2⟩
    · exact ⟨["order"], parseEnumField_path _ _ _ i h2⟩
  · simp [invalidType] at h
    exact ⟨[], by simp [h]⟩

theorem parseTranscript_path (p : List String) (v : JsonValue) :
    ∀ i ∈ parseTranscript p v, ∃ r, i.path = p ++ r := by
  intro i h
  unfold parseTranscript at h
  split at h
  · simp only [List.mem_append] at h
    rcases h with (h2 | h2) | h2
    · exact ⟨["cron"], parseStringField_path _ _ i h2⟩
    · exact ⟨["minutes"], parseNumberField_path _ _ _ _ i h2⟩
    · exact ⟨["minimum"], parseNumberField_path _ _ _ _ i h2⟩
  · simp [invalidType] at h
    exact ⟨[], by simp [h]⟩

theorem parseSummary_path (p : List String) (v : JsonValue) :
    ∀ i ∈ parseSummary p v, ∃ r, i.path = p ++ r := by
  intro i h
  unfold parseSummary at h
  split at h
  · simp only [List.mem_append] at h
    rcases h with (h2 | h2) | h2
    · exact ⟨["model"], parseStringField_path _ _ i h2⟩
    · exact ⟨["prompt"], parseStringField_path _ _ i h2⟩
    · exact ⟨["random"], parseStringField_path _ _ i h2⟩
  · simp [invalidType] at h
    exact ⟨[], by simp [h]⟩

theorem parseOpenai_path (p : List String) (v : JsonValue) :
    ∀ i ∈ parseOpenai p v, ∃ r, i.path = p ++ r := by
  intro i h
  unfold parseOpenai at h
  split at h
  · simp only [List.mem_append] at h
    rcases h with (h2 | h2) | h2
    · exact ⟨["key"], parseStringField_path _ _ i h2⟩
    · obtain ⟨r, hr⟩ := parseSummary_path _ _ i h2
      exact ⟨"summary" :: r, by simpa using hr⟩
    · obtain ⟨r, hr⟩ := parseOpenaiImage_path _ _ i h2
      exact ⟨"image" :: r, by simpa using hr⟩
  · simp [invalidType] at h
    exact ⟨[], by simp [h]⟩

theorem parseSystem_path (p : List String) (v : JsonValue) :
    ∀ i ∈ parseSystem p v, ∃ r, i.path = p ++ r := by
  intro i h
  unfold parseSystem at h
  split at h
  · rcases List.mem_append.mp h with h2 | h2
    · exact ⟨["port"], parseNumberField_path _ _ _ _ i h2⟩
    · unfold parseStorage at h2
      split at h2
      · exact ⟨["storage", "path"], by simpa using parseStringField_path _ _ i h2⟩
      · simp [invalidType] at h2
        exact ⟨["storage"], by simp [h2]⟩
  · simp [invalidType] at h
    exact ⟨[], by simp [h]⟩

theorem parseStability_path (p : List String) (v : JsonValue) :
    ∀ i ∈ parseStability p v,
      i.path = p ∨ i.path = p ++ ["key"] ∨ i.path = p ++ ["image"] ∨
      i.path = p ++ ["image", "cfg_scale"] ∨ i.path = p ++ ["image", "samples"] ∨
      i.path = p ++ ["image", "steps"] ∨ i.path = p ++ ["image", "style"] := by
  intro i h
  unfold parseStability at h
  split at h
  · simp at h
  · simp at h
  · rcases List.mem_append.mp h with h2 | h2
    · exact Or.inr (Or.inl (parseStringField_path _ _ i h2))
    · rcases parseStabImage_path _ _ i h2 with hp | hp | hp | hp | hp <;> simp [hp]
  · simp [invalidType] at h
    exact Or.inl (by simp [h])

theorem specLogs_parse (p : List String) (v : JsonValue) (h : specLogsOk v = true) :
    parseLogs p v = [] := by
  unfold specLogsOk at h
  unfold parseLogs
  split at h
  · next fs =>
    cases hl : getField fs "level" <;> rw [hl] at h <;> simp_all [parseEnumField]
  · simp at h

theorem specTime_parse (p : List String) (v : JsonValue) (h : specTimeOk v = true) :
    parseTime p v = [] := by
  unfold specTimeOk at h
  unfold parseTime
  split at h
  · next fs =>
    rw [Bool.and_eq_true] at h
    obtain ⟨h1, h2⟩ := h
    cases h1e : getField fs "timezone" <;> rw [h1e] at h1 <;> simp_all [parseStringField]
    cases h2e : getField fs "format" <;> rw [h2e] at h2 <;> simp_all [parseNullishStringField]
  · simp at h

theorem specImage_parse (p : List String) (v : JsonValue) (h : specImageOk v = true) :
    parseImageSection p v = [] := by
  unfold specImageOk at h
  unfold parseImageSection
  split at h
  · next fs =>
    rw [Bool.and_eq_true] at h
    obtain ⟨h1, h2⟩ := h
    cases h1e : getField fs "interval" <;> rw [h1e] at h1 <;> simp_all [parseNumberField, not_lt]
    cases h2e : getField fs "order" <;> rw [h2e] at h2 <;> simp_all [parseEnumField]
  · simp at h

theorem specTranscript_parse (p : List String) (v : JsonValue) (h : specTranscriptOk v = true) :
    parseTranscript p v = [] := by
  unfold specTranscriptOk at h
  unfold parseTranscript
  split at h
  · next fs =>
    rw [Bool.and_eq_true, Bool.and_eq_true] at h
    obtain ⟨⟨h1, h2⟩, h3⟩ := h
    cases h1e : getField fs "cron" <;> rw [h1e] at h1 <;> simp_all [parseStringField]
    cases h2e : getField fs "minutes" <;> rw [h2e] at h2 <;> simp_all [parseNumberField]
    cases h3e : getField fs "minimum" <;> rw [h3e] at h3 <;> simp_all [parseNumberField, not_lt]
  · simp at h

theorem specOpenaiImage_parse (p : List String) (v : JsonValue) (h : specOpenaiImageOk v = true) :
    parseOpenaiImage p v = [] := by
  cases v with
  | bool b =>
    cases b
    · rfl
    · simp [specOpenaiImageOk] at h
  | obj fs =>
    simp only [specOpenaiImageOk, Bool.and_eq_true] at h
    obtain ⟨h1, h2⟩ := h
    have hwt : openaiImageWellTyped fs = true := by
      simp only [openaiImageWellTyped, Bool.and_eq_true]
      refine ⟨h1, ?_⟩
      cases hst : getField fs "style" <;> rw [hst] at h2 <;> simp_all
    simp only [parseOpenaiImage, hwt, if_true]
    cases hst : getField fs "style"
    case arr xs =>
      rw [hst] at h2
      simp only [Bool.and_eq_true, decide_eq_true_eq] at h2
      obtain ⟨hlen, _⟩ := h2
      simp [styleMinIssues, not_lt.mpr hlen]
    all_goals rw [hst] at h2
    all_goals simp at h2
  | null => simp [specOpenaiImageOk] at h
  | undef => simp [specOpenaiImageOk] at h
  | num q => simp [specOpenaiImageOk] at h
  | str s => simp [specOpenaiImageOk] at h
  | arr xs => simp [specOpenaiImageOk] at h

theorem int_mult64 (w : ℚ) (h1 : isIntQ w = true) (h2 : (w.num % 64 == 0) = true) :
    jsMod w 64 = 0 := by
  rw [isIntQ, beq_iff_eq] at h1
  rw [beq_iff_eq] at h2
  exact jsMod_int64 w h1 h2

theorem spec_branchOk (fs : List (String × JsonValue))
    (h : specStabImageOk (.obj fs) = true) : stabImageBranchOk (.obj fs) = true := by
  simp only [specStabImageOk] at h
  simp only [stabImageBranchOk]
  cases he : getField fs "engine_id"
  case str e =>
    rw [he] at h
    cases hw : getField fs "width"
    case num w =>
      rw [hw] at h
      cases hh : getField fs "height"
      case num hq =>
        rw [hh] at h
        simp only [Bool.and_eq_true] at h
        obtain ⟨⟨⟨⟨⟨⟨⟨⟨⟨p1, p2⟩, p3⟩, p4⟩, p5⟩, p6⟩, p7⟩, p8⟩, p9⟩, p10⟩ := h
        have hsz : (validateSizeFor768 ⟨w, hq, e⟩ && validateSizeForOtherEngines ⟨w, hq, e⟩) = true := by
          apply (size_pred_iff w hq e).mpr
          cases hI : strIncludes e "768" <;> rw [hI] at p10 <;>
            simp_all [qmul_eq_mul]
        obtain ⟨hsz1, hsz2⟩ := Bool.and_eq_true _ _ |>.mp hsz
        simp only [Bool.and_eq_true]
        refine ⟨⟨⟨⟨⟨⟨⟨?_, ?_⟩, ?_⟩, ?_⟩, ?_⟩, ?_⟩, hsz1⟩, hsz2⟩
        · cases ht : getField fs "timeout" <;> rw [ht] at p3 <;> simp_all [isNum]
        · cases hc : getField fs "cfg_scale" <;> rw [hc] at p4 <;> simp_all [numInRange]
        · cases hsm : getField fs "samples" <;> rw [hsm] at p5 <;> simp_all [numInRange]
        · cases hst : getField fs "steps" <;> rw [hst] at p6 <;> simp_all [numInRange]
        · exact p7
        · rw [mult64Check, Bool.and_eq_true, beq_iff_eq, beq_iff_eq]
          exact ⟨int_mult64 w p1 p8, int_mult64 hq p2 p9⟩
      all_goals rw [hh] at h
      all_goals simp at h
    all_goals rw [hw] at h
    all_goals simp at h
  all_goals rw [he] at h
  all_goals simp at h

theorem specStabImage_parse (p : List String) (v : JsonValue) (h : specStabImageOk v = true) :
    parseStabImage p v = [] := by
  cases v with
  | bool b =>
    cases b
    · rfl
    · simp [specStabImageOk] at h
  | obj fs => exact branchOk_parse_empty _ (spec_branchOk fs h) p
  | null => simp [specStabImageOk] at h
  | undef => simp [specStabImageOk] at h
  | num q => simp [specStabImageOk] at h
  | str s => simp [specStabImageOk] at h
  | arr xs => simp [specStabImageOk] at h

theorem specStability_parse (p : List String) (v : JsonValue) (h : specStabilityOk v = true)
    (hns : v ≠ .bool false) : parseStability p v = [] := by
  cases v with
  | null => rfl
  | undef => rfl
  | obj fs =>
    simp only [specStabilityOk, Bool.and_eq_true] at h
    obtain ⟨h1, h2⟩ := h
    simp only [parseStability]
    rw [specStabImage_parse _ _ h2]
    cases hk : getField fs "key" <;> rw [hk] at h1 <;> simp_all [parseStringField]
  | bool b =>
    cases b
    · exact absurd rfl hns
    · simp [specStabilityOk] at h
  | num q => simp [specStabilityOk] at h
  | str s => simp [specStabilityOk] at h
  | arr xs => simp [specStabilityOk] at h

theorem specOpenai_parse (p : List String) (v : JsonValue) (h : specOpenaiOk v = true) :
    parseOpenai p v = [] := by
  cases v with
  | obj fs =>
    simp only [specOpenaiOk, Bool.and_eq_true] at h
    obtain ⟨⟨h1, h2⟩, h3⟩ := h
    simp only [parseOpenai]
    rw [specOpenaiImage_parse _ _ h3]
    have hksum : parseSummary (p ++ ["summary"]) (getField fs "summary") = [] := by
      cases hsm : getField fs "summary"
      case obj sfs =>
        rw [hsm] at h2
        simp only [Bool.and_eq_true] at h2
        obtain ⟨⟨g1, g2⟩, g3⟩ := h2
        simp only [parseSummary]
        cases m1 : getField sfs "model" <;> rw [m1] at g1 <;> try simp at g1
        case str s1 =>
        cases m2 : getField sfs "prompt" <;> rw [m2] at g2 <;> try simp at g2
        case str s2 =>
        cases m3 : getField sfs "random" <;> rw [m3] at g3 <;> try simp at g3
        case str s3 =>
        simp [parseStringField]
      all_goals rw [hsm] at h2
      all_goals simp at h2
    rw [hksum]
    cases hk : getField fs "key" <;> rw [hk] at h1 <;> simp_all [parseStringField]
  | null => simp [specOpenaiOk] at h
  | undef => simp [specOpenaiOk] at h
  | bool b => simp [specOpenaiOk] at h
  | num q => simp [specOpenaiOk] at h
  | str s => simp [specOpenaiOk] at h
  | arr xs => simp [specOpenaiOk] at h

theorem specSystem_parse (p : List String) (v : JsonValue) (h : specSystemOk v = true) :
    parseSystem p v = [] := by
  cases v with
  | obj fs =>
    simp only [specSystemOk, Bool.and_eq_true] at h
    obtain ⟨h1, h2⟩ := h
    simp only [parseSystem]
    have hst : parseStorage (p ++ ["storage"]) (getField fs "storage") = [] := by
      cases hs : getField fs "storage"
      case obj sfs =>
        rw [hs] at h2
        have h2b : (match getField sfs "path" with
          | JsonValue.str _ => true
          | _ => false) = true := h2
        simp only [parseStorage]
        cases hp : getField sfs "path" <;> rw [hp] at h2b <;> simp_all [parseStringField]
      all_goals rw [hs] at h2
      all_goals simp at h2
    rw [hst]
    cases hp2 : getField fs "port" <;> rw [hp2] at h1 <;> simp_all [parseNumberField]
  | null => simp [specSystemOk] at h
  | undef => simp [specSystemOk] at h
  | bool b => simp [specSystemOk] at h
  | num q => simp [specSystemOk] at h
  | str s => simp [specSystemOk] at h
  | arr xs => simp [specSystemOk] at h

theorem spec_parseConfig_empty (c : JsonValue) (h : specValidConfig c = true)
    (hns : ∀ fs, c = .obj fs → getField fs "stabilityai" ≠ .bool false) :
    parseConfig c = [] := by
  cases c with
  | obj fs =>
    simp only [specValidConfig, Bool.and_eq_true] at h
    obtain ⟨⟨⟨⟨⟨⟨⟨h1, h2⟩, h3⟩, h4⟩, h5⟩, h6⟩, h7⟩, h8⟩ := h
    simp only [parseConfig]
    rw [specLogs_parse _ _ h2, specTime_parse _ _ h3, specImage_parse _ _ h4,
      specTranscript_parse _ _ h5, specOpenai_parse _ _ h6,
      specStability_parse _ _ h7 (hns fs rfl), specSystem_parse _ _ h8]
    cases ht : getField fs "telemetry" <;> rw [ht] at h1 <;> simp_all [parseBooleanField]
  | null => simp [specValidConfig] at h
  | undef => simp [specValidConfig] at h
  | bool b => simp [specValidConfig] at h
  | num q => simp [specValidConfig] at h
  | str s => simp [specValidConfig] at h
  | arr xs => simp [specValidConfig] at h

theorem mem_refine_of_viol (p : List String) (w h : ℚ) (e : String)
    (hv : mult64Check ⟨w, h, e⟩ = false ∨
      (validateSizeFor768 ⟨w, h, e⟩ && validateSizeForOtherEngines ⟨w, h, e⟩) = false) :
    ∃ i ∈ refineIssues p w h e, i.path = p ∧
      (i.message = mult64Message ∨ i.message = size768Message ∨ i.message = sizeOtherMessage) := by
  rcases hv with hv | hv
  · exact ⟨⟨p, mult64Message⟩, by simp [refineIssues, hv], rfl, Or.inl rfl⟩
  · cases h7 : validateSizeFor768 ⟨w, h, e⟩
    · exact ⟨⟨p, size768Message⟩, by simp [refineIssues, h7], rfl, Or.inr (Or.inl rfl)⟩
    · have ho : validateSizeForOtherEngines ⟨w, h, e⟩ = false := by
        cases ho2 : validateSizeForOtherEngines ⟨w, h, e⟩
        · rfl
        · rw [h7, ho2] at hv
          simp at hv
      exact ⟨⟨p, sizeOtherMessage⟩, by simp [refineIssues, ho], rfl, Or.inr (Or.inr rfl)⟩

theorem stab_violation_exists (cfs sfs ifs : List (String × JsonValue)) (w h : ℚ)
    (hs : getField cfs "stabilityai" = .obj sfs)
    (hi : getField sfs "image" = .obj ifs)
    (hw : getField ifs "width" = .num w)
    (hh : getField ifs "height" = .num h)
    (hv : ∀ e : String, getField ifs "engine_id" = .str e →
      mult64Check ⟨w, h, e⟩ = false ∨
      (validateSizeFor768 ⟨w, h, e⟩ && validateSizeForOtherEngines ⟨w, h, e⟩) = false) :
    ∃ i ∈ parseConfig (.obj cfs), i.path = ["stabilityai", "image"] := by
  have hx : ∃ i ∈ parseStabImage ["stabilityai", "image"] (getField sfs "image"),
      i.path = ["stabilityai", "image"] := by
    rw [hi]
    cases he : getField ifs "engine_id"
    case str e =>
      simp only [parseStabImage, he, hw, hh]
      by_cases hwt : stabImageWellTyped ifs = true
      · simp only [hwt, if_true]
        obtain ⟨i, him, hp, _⟩ := mem_refine_of_viol ["stabilityai", "image"] w h e (hv e he)
        exact ⟨i, List.mem_append_right _ him, hp⟩
      · rw [Bool.not_eq_true] at hwt
        simp only [hwt, Bool.false_eq_true, if_false]
        exact ⟨⟨["stabilityai", "image"], "Invalid input"⟩, List.mem_singleton_self _, rfl⟩
    all_goals simp only [parseStabImage, he, hw, hh]
    all_goals exact ⟨⟨["stabilityai", "image"], "Invalid input"⟩, List.mem_singleton_self _, rfl⟩
  obtain ⟨i, him, hp⟩ := hx
  exact ⟨i, stab_issue_mem cfs sfs hs i him, hp⟩

/-- C1: for a present, non-disabled image parameter object, the
area-by-engine rule passes exactly on the closed intervals selected by
the engine-id substring match — [589824, 1048576] when the identifier
contains "768", [262144, 1048576] otherwise, bounds included — and a
failing area rule makes `validate(true)` report a violation for the
`stabilityai.image` sub-config.  The bound cases — 768×768 (area
exactly 589824) on a 768 engine, and 512×512 (area exactly 262144) on
another engine — validate with no violation at all. -/
theorem c1_area_by_engine (w h : ℚ) (e : String)
    (cfs sfs ifs : List (String × JsonValue))
    (hs : getField cfs "stabilityai" = .obj sfs)
    (hi : getField sfs "image" = .obj ifs)
    (he : getField ifs "engine_id" = .str e)
    (hw : getField ifs "width" = .num w)
    (hh : getField ifs "height" = .num h) :
    ((validateSizeFor768 ⟨w, h, e⟩ && validateSizeForOtherEngines ⟨w, h, e⟩) = true ↔
      (if strIncludes e "768" = true then 589824 ≤ w * h ∧ w * h ≤ 1048576
       else 262144 ≤ w * h ∧ w * h ≤ 1048576)) ∧
    ((validateSizeFor768 ⟨w, h, e⟩ && validateSizeForOtherEngines ⟨w, h, e⟩) = false →
      ∃ i ∈ parseConfig (.obj cfs), i.path = ["stabilityai", "image"]) ∧
    (validate true cfgC1).1 = ["stabilityai.image: " ++ strToLower size768Message] ∧
    (validate true cfgC1bound).1 = [] ∧
    (validate true validCfg).1 = [] := by
  refine ⟨size_pred_iff w h e, fun hv => ?_, by decide, by decide, by decide⟩
  refine stab_violation_exists cfs sfs ifs w h hs hi hw hh (fun e2 he2 => ?_)
  rw [he] at he2
  cases JsonValue.str.inj he2
  exact Or.inr hv

/-- Witness for C1 at 512 by 512 on an engine containing "768". -/
theorem c1_witness :
    ∃ i ∈ parseConfig cfgC1, i.path = ["stabilityai", "image"] :=
  (c1_area_by_engine 512 512 "stable-diffusion-768-v2"
    (cfgFields "info" "random" (.obj (stabFields (.obj imgC1Fields))))
    (stabFields (.obj imgC1Fields)) imgC1Fields
    rfl rfl rfl rfl rfl).2.1 (by decide)

/-- C2: the multiple-of-64 rule: the first refinement holds exactly when
width mod 64 and height mod 64 are both zero; width 100 with height 768
fails it for every engine identifier and, on a present non-disabled
image parameter object, makes `validate(true)` report a violation,
while width 768, height 768 satisfies it. -/
theorem c2_multiple_of_64 :
    (∀ (w h : ℚ) (e : String),
      mult64Check ⟨w, h, e⟩ = true ↔ (jsMod w 64 = 0 ∧ jsMod h 64 = 0)) ∧
    (∀ e : String, mult64Check ⟨100, 768, e⟩ = false) ∧
    (∀ e : String, mult64Check ⟨768, 768, e⟩ = true) ∧
    (∀ cfs sfs ifs : List (String × JsonValue),
      getField cfs "stabilityai" = .obj sfs →
      getField sfs "image" = .obj ifs →
      getField ifs "width" = .num 100 →
      getField ifs "height" = .num 768 →
      ∃ i ∈ parseConfig (.obj cfs), i.path = ["stabilityai", "image"]) ∧
    (validate true cfgC2).1 =
      ["stabilityai.image: " ++ strToLower mult64Message,
       "stabilityai.image: " ++ strToLower sizeOtherMessage] := by
  have hm : ∀ e : String, mult64Check ⟨100, 768, e⟩ = false := by
    intro e
    have : mult64Check ⟨100, 768, e⟩ = (jsMod 100 64 == 0 && jsMod 768 64 == 0) := rfl
    rw [this]
    decide
  refine ⟨mult64_iff, hm, ?_, ?_, by decide⟩
  · intro e
    have : mult64Check ⟨768, 768, e⟩ = (jsMod 768 64 == 0 && jsMod 768 64 == 0) := rfl
    rw [this]
    decide
  · intro cfs sfs ifs hs hi hw hh
    exact stab_violation_exists cfs sfs ifs 100 768 hs hi hw hh (fun e _ => Or.inl (hm e))

/-- Witness for C2 at width 100, height 768. -/
theorem c2_witness :
    ∃ i ∈ parseConfig cfgC2, i.path = ["stabilityai", "image"] :=
  c2_multiple_of_64.2.2.2.1
    (cfgFields "info" "random" (.obj (stabFields (.obj imgC2Fields))))
    (stabFields (.obj imgC2Fields)) imgC2Fields rfl rfl rfl rfl

/-- C3 counterexample: the configuration `cfgC7` satisfies every rule
of the spec's rule set — the provider config is explicitly disabled by
the spec's provider-level false sentinel — yet `validate(true)` does
not return the empty sequence. -/
theorem c3_counterexample :
    specValidConfig cfgC7 = true ∧
    (validate true cfgC7).1 = ["stabilityai: expected object, received boolean"] :=
  ⟨by decide, by decide⟩

/-- C3 amended: every configuration satisfying the whole rule set (the
spec-side predicate `specValidConfig`) whose provider config does not
use the provider-level disabled sentinel makes `validate(true)` return
the empty sequence. -/
theorem c3_valid_nonsentinel_empty (c : JsonValue) (h : specValidConfig c = true)
    (hns : ∀ fs, c = .obj fs → getField fs "stabilityai" ≠ .bool false) :
    (validate true c).1 = [] := by
  rw [validate_true_fst, spec_parseConfig_empty c h hns]
  rfl

/-- Witness for the amended C3 at the fully valid configuration. -/
theorem c3_witness : specValidConfig validCfg = true ∧ (validate true validCfg).1 = [] :=
  ⟨by decide, c3_valid_nonsentinel_empty validCfg (by decide)
    (fun fs hfs => by
      injection hfs with h2
      subst h2
      exact fun hc => JsonValue.noConfusion hc)⟩

/-- C4 counterexample: `cfgC4abort` violates a per-field type rule
(`timeout` is a string) together with the multiple-of-64 and area
cross-field rules (width 100, height 256), yet `validate(true)` returns
the single collapsed message "stabilityai.image: invalid input" — not
one message for every violated rule — because the wrong primitive type
aborts the union's object branch. -/
theorem c4_counterexample :
    mult64Check ⟨100, 256, "stable-diffusion-v1-5"⟩ = false ∧
    validateSizeForOtherEngines ⟨100, 256, "stable-diffusion-v1-5"⟩ = false ∧
    getField imgC4abortFields "timeout" = .str "soon" ∧
    isNum (getField imgC4abortFields "timeout") = false ∧
    (validate true cfgC4abort).1 = ["stabilityai.image: invalid input"] :=
  ⟨by decide, by decide, rfl, by decide, by decide⟩

/-- C4 amended: validation runs the full rule set in one pass without
short-circuiting: the issue list is the concatenation of every
section's issues; within a structurally well-typed image sub-config
every violated range rule and cross-field rule contributes its own
message (`cfgC4`: samples out of range plus both failing refinements
give three messages), and rules violated at distinct locations all
appear (`cfgC4b`: four messages).  Only a type-level failure inside
the union collapses that sub-config's violations into the single
invalid-union message. -/
theorem c4_amended :
    (∀ fs : List (String × JsonValue),
      parseConfig (.obj fs) =
        parseBooleanField ["telemetry"] (getField fs "telemetry") ++
        parseLogs ["logs"] (getField fs "logs") ++
        parseTime ["time"] (getField fs "time") ++
        parseImageSection ["image"] (getField fs "image") ++
        parseTranscript ["transcript"] (getField fs "transcript") ++
        parseOpenai ["openai"] (getField fs "openai") ++
        parseStability ["stabilityai"] (getField fs "stabilityai") ++
        parseSystem ["system"] (getField fs "system")) ∧
    (validate true cfgC4).1 =
      ["stabilityai.image.samples: " ++ strToLower (boundMsgLe 10),
       "stabilityai.image: " ++ strToLower mult64Message,
       "stabilityai.image: " ++ strToLower sizeOtherMessage] ∧
    (validate true cfgC4b).1 =
      ["logs.level: " ++ strToLower (enumMessage logLevels "trace"),
       "image.order: " ++ strToLower (enumMessage ["random", "recent"] "weird"),
       "stabilityai.image: " ++ strToLower mult64Message,
       "stabilityai.image: " ++ strToLower sizeOtherMessage] :=
  ⟨fun fs => rfl, by decide, by decide⟩

/-- C5: for every configuration, log mode (`validate(false)`) returns
the empty sequence, and return-errors mode (`validate(true)`) writes no
diagnostic log events at all. -/
theorem c5_mode_separation (c : JsonValue) :
    (validate false c).1 = [] ∧ (validate true c).2 = [] :=
  ⟨validate_false_fst c, validate_true_snd c⟩

/-- C6: when the image-generation provider's image sub-config is the
disabled sentinel `false`, no violation is raised at or below the
`stabilityai.image` path, regardless of every other value in the
configuration. -/
theorem c6_disabled_sentinel (cfs sfs : List (String × JsonValue))
    (hs : getField cfs "stabilityai" = .obj sfs)
    (hi : getField sfs "image" = .bool false) :
    (parseConfig (.obj cfs)).all
      (fun i => i.path.take 2 != ["stabilityai", "image"]) = true := by
  rw [List.all_eq_true]
  intro i hm
  simp only [parseConfig, List.mem_append] at hm
  rcases hm with ((((((hm | hm) | hm) | hm) | hm) | hm) | hm) | hm
  · have := parseBooleanField_path _ _ i hm
    simp [this]
  · obtain ⟨r, hr⟩ := parseLogs_path _ _ i hm
    simp [hr]
  · obtain ⟨r, hr⟩ := parseTime_path _ _ i hm
    simp [hr]
  · obtain ⟨r, hr⟩ := parseImageSection_path _ _ i hm
    simp [hr]
  · obtain ⟨r, hr⟩ := parseTranscript_path _ _ i hm
    simp [hr]
  · obtain ⟨r, hr⟩ := parseOpenai_path _ _ i hm
    simp [hr]
  · rw [hs] at hm
    simp only [parseStability, List.mem_append] at hm
    rcases hm with hm | hm
    · have := parseStringField_path _ _ i hm
      simp [this]
    · rw [hi] at hm
      simp [parseStabImage] at hm
  · obtain ⟨r, hr⟩ := parseSystem_path _ _ i hm
    simp [hr]

/-- Witness for C6 at a configuration with the sentinel and another
violation elsewhere. -/
theorem c6_witness :
    (parseConfig cfgC6).all (fun i => i.path.take 2 != ["stabilityai", "image"]) = true :=
  c6_disabled_sentinel (cfgFields "trace" "random" (.obj (stabFields (.bool false))))
    (stabFields (.bool false)) rfl rfl

/-- C7 counterexample: a configuration that is valid in every respect
except that the whole provider config is the disabled sentinel `false`
is rejected — the false sentinel is not accepted for the provider
config itself, contradicting the claimed tri-state shape. -/
theorem c7_counterexample :
    (validate true cfgC7).1 = ["stabilityai: expected object, received boolean"] := by
  decide

/-- C7 amended: the provider config may be absent (null or undefined)
or an object; the disabled sentinel `false` is accepted one level
lower, for its image sub-config (alongside a fully valid parameter
object); any non-object, non-null shape of the provider config itself —
including the literal `false` — is a violation. -/
theorem c7_amended :
    parseStability ["stabilityai"] .null = [] ∧
    parseStability ["stabilityai"] .undef = [] ∧
    (∀ p : List String, parseStabImage p (.bool false) = []) ∧
    (∀ v : JsonValue, stabImageBranchOk v = true → ∀ p : List String, parseStabImage p v = []) ∧
    (∀ b : Bool, parseStability ["stabilityai"] (.bool b) ≠ []) ∧
    (∀ s : String, parseStability ["stabilityai"] (.str s) ≠ []) ∧
    (∀ q : ℚ, parseStability ["stabilityai"] (.num q) ≠ []) ∧
    (∀ xs : List JsonValue, parseStability ["stabilityai"] (.arr xs) ≠ []) ∧
    parseStability ["stabilityai"] (.bool false) =
      [⟨["stabilityai"], "Expected object, received boolean"⟩] := by
  refine ⟨rfl, rfl, fun p => rfl, ?_, ?_, ?_, ?_, ?_, rfl⟩
  · exact fun v hv p => branchOk_parse_empty v hv p
  · intro b
    cases b <;> simp [parseStability, invalidType]
  · intro s
    simp [parseStability, invalidType]
  · intro q
    simp [parseStability, invalidType]
  · intro xs
    simp [parseStability, invalidType]

/-- Witness for the amended C7 at a fully valid image object. -/
theorem c7_witness :
    parseStabImage ["stabilityai", "image"] (.obj validImgFields) = [] :=
  c7_amended.2.2.2.1 (.obj validImgFields) (by decide) ["stabilityai", "image"]

/-- C8: with log level "trace" and everything else valid,
`validate(true)` returns exactly one violation, at path `logs.level`;
in general every returned message is the dot-joined path followed by
": " and the lower-cased message. -/
theorem c8_log_level_enum :
    parseConfig cfgC8 = [⟨["logs", "level"], enumMessage logLevels "trace"⟩] ∧
    (validate true cfgC8).1 = ["logs.level: " ++ strToLower (enumMessage logLevels "trace")] ∧
    (∀ c : JsonValue, (validate true c).1 = (parseConfig c).map renderIssue) ∧
    (∀ i : Issue, renderIssue i = String.intercalate "." i.path ++ ": " ++ strToLower i.message) :=
  ⟨by decide, by decide, validate_true_fst, fun i => rfl⟩

/-- C9 counterexample: `samples` = 11/2 and `timeout` = 15/2 are
non-integer numbers, yet the configuration passes validation with no
violation — integer typing of the image parameters is not enforced. -/
theorem c9_counterexample :
    (mkRat 11 2).den ≠ 1 ∧
    getField imgC9Fields "samples" = .num (mkRat 11 2) ∧
    getField imgC9Fields "timeout" = .num (mkRat 15 2) ∧
    (validate true cfgC9).1 = [] :=
  ⟨by decide, rfl, rfl, by decide⟩

/-- C9 amended: width, height, timeout, samples and steps are checked
as numbers only (samples within [1,10] and steps within [10,50]); a
non-number value is a violation (collapsed to the sub-config's
invalid-union message), an out-of-range value is a violation reported
at the field's own path, but a non-integer numeric value is
accepted. -/
theorem c9_amended :
    (validate true cfgC9).1 = [] ∧
    (validate true cfgC9str).1 = ["stabilityai.image: invalid input"] ∧
    (validate true cfgC9range).1 =
      ["stabilityai.image.samples: " ++ strToLower (boundMsgLe 10)] ∧
    (∀ q : ℚ, numInRange (.num q) 1 10 = true ↔ (1 ≤ q ∧ q ≤ 10)) ∧
    (∀ q : ℚ, numInRange (.num q) 10 50 = true ↔ (10 ≤ q ∧ q ≤ 50)) ∧
    (∀ s : String, numInRange (.str s) 1 10 = false) := by
  refine ⟨by decide, by decide, by decide, ?_, ?_, fun s => rfl⟩
  · intro q
    simp [numInRange]
  · intro q
    simp [numInRange]

/-- C10: when a cross-field rule (multiple-of-64 or area-by-engine)
fails on a present, structurally well-typed image parameter object,
the violation carries the path of the sub-config object as a whole,
`stabilityai.image`, with the failing refinement's own message — and
no issue is ever reported at `stabilityai.image.width` or
`stabilityai.image.height`. -/
theorem c10_crossfield_path (cfs sfs ifs : List (String × JsonValue)) (w h : ℚ) (e : String)
    (hs : getField cfs "stabilityai" = .obj sfs)
    (hi : getField sfs "image" = .obj ifs)
    (he : getField ifs "engine_id" = .str e)
    (hw : getField ifs "width" = .num w)
    (hh : getField ifs "height" = .num h)
    (hwt : stabImageWellTyped ifs = true)
    (hviol : mult64Check ⟨w, h, e⟩ = false ∨
      (validateSizeFor768 ⟨w, h, e⟩ && validateSizeForOtherEngines ⟨w, h, e⟩) = false) :
    (∃ i ∈ parseConfig (.obj cfs), i.path = ["stabilityai", "image"] ∧
      (i.message = mult64Message ∨ i.message = size768Message ∨
        i.message = sizeOtherMessage)) ∧
    (parseConfig (.obj cfs)).all
      (fun i => (i.path != ["stabilityai", "image", "width"]) &&
        (i.path != ["stabilityai", "image", "height"])) = true := by
  constructor
  · obtain ⟨i, him, hp, hmsg⟩ := mem_refine_of_viol ["stabilityai", "image"] w h e hviol
    have him2 : i ∈ parseStabImage ["stabilityai", "image"] (getField sfs "image") := by
      rw [hi]
      simp only [parseStabImage, he, hw, hh, hwt, if_true]
      exact List.mem_append_right _ him
    exact ⟨i, stab_issue_mem cfs sfs hs i him2, hp, hmsg⟩
  · rw [List.all_eq_true]
    intro i hm
    simp only [parseConfig, List.mem_append] at hm
    rcases hm with ((((((hm | hm) | hm) | hm) | hm) | hm) | hm) | hm
    · have := parseBooleanField_path _ _ i hm
      simp [this]
    · obtain ⟨r, hr⟩ := parseLogs_path _ _ i hm
      simp [hr]
    · obtain ⟨r, hr⟩ := parseTime_path _ _ i hm
      simp [hr]
    · obtain ⟨r, hr⟩ := parseImageSection_path _ _ i hm
      simp [hr]
    · obtain ⟨r, hr⟩ := parseTranscript_path _ _ i hm
      simp [hr]
    · obtain ⟨r, hr⟩ := parseOpenai_path _ _ i hm
      simp [hr]
    · rcases parseStability_path _ _ i hm with hp | hp | hp | hp | hp | hp | hp <;>
        simp [hp]
    · obtain ⟨r, hr⟩ := parseSystem_path _ _ i hm
      simp [hr]

/-- Witness for C10 at a configuration violating both cross-field
rules. -/
theorem c10_witness :
    (∃ i ∈ parseConfig cfgC4, i.path = ["stabilityai", "image"] ∧
      (i.message = mult64Message ∨ i.message = size768Message ∨
        i.message = sizeOtherMessage)) ∧
    (parseConfig cfgC4).all
      (fun i => (i.path != ["stabilityai", "image", "width"]) &&
        (i.path != ["stabilityai", "image", "height"])) = true :=
  c10_crossfield_path
    (cfgFields "info" "random" (.obj (stabFields (.obj imgC4Fields))))
    (stabFields (.obj imgC4Fields)) imgC4Fields 100 256 "stable-diffusion-v1-5"
    rfl rfl rfl rfl rfl (by decide)
    (Or.inr (by decide))


end Schemas
